import Mathlib

/-!
Shallow embedding of `src/main.py`: a FastAPI CRUD service over a single
`books` table (SQLite via SQLAlchemy), with one handler per HTTP verb/path.
Stateful handlers are embedded as explicit state-passing functions on a
`DB` value; fallible handlers return `Except HTTPException`.  The theorems
below check the specification's claims about these handlers.
-/

set_option maxHeartbeats 1000000

/-- Embeds the ORM model `BookModel` (the `books` table): columns `id`
(integer primary key), `title`, `author`. -/
structure BookModel where
  id : Int
  title : String
  author : String
deriving Repr, DecidableEq

/-- Embeds `BookSchema`: the create request/response body with exactly the
two fields `title` and `author` (no `id` field exists in this schema). -/
structure BookSchema where
  title : String
  author : String
deriving Repr, DecidableEq

/-- Embeds `BookGetSchema`: the read/update response body with fields
`id`, `title`, `author`. -/
structure BookGetSchema where
  id : Int
  title : String
  author : String
deriving Repr, DecidableEq

/-- Embeds `BookUpdateSchema`: the update request body where both fields
default to `None`; `none` models a field that is omitted or explicitly
null in the JSON body, exactly as pydantic parses it. -/
structure BookUpdateSchema where
  title : Option String := none
  author : Option String := none
deriving Repr, DecidableEq

/-- Embeds `HTTPException(status_code=..., detail=...)`. -/
structure HTTPException where
  status_code : Nat
  detail : String
deriving Repr, DecidableEq

/-- The delete handler's confirmation body, a single `detail` string. -/
structure DetailResponse where
  detail : String
deriving Repr, DecidableEq

/-- The database state: the rows of the `books` table in storage (rowid)
order, together with the next primary key the engine will assign; SQLite
hands out a fresh integer key on each insert. -/
structure DB where
  nextId : Int := 1
  books : List BookModel := []
deriving Repr, DecidableEq

/-- Embeds `session.get(BookModel, book_id)`: lookup by primary key. -/
def sessionGet (db : DB) (book_id : Int) : Option BookModel :=
  db.books.find? (fun b => b.id == book_id)

/-- The storage invariant every reachable database satisfies: primary keys
are unique (the column is a primary key) and every assigned key is below
the generator's next key. -/
def DB.wf (db : DB) : Prop :=
  (db.books.map (fun b => b.id)).Nodup ∧ ∀ b ∈ db.books, b.id < db.nextId

instance (db : DB) : Decidable db.wf := by
  unfold DB.wf; infer_instance

deriving instance DecidableEq for Except

/-- Embeds `setup_database` (POST /setup): drop the table if present and
recreate it empty; all rows are destroyed and the key generator resets. -/
def setup_database (_db : DB) : DB :=
  { nextId := 1, books := [] }

/-- Embeds `add_book` (POST /books): build a new row from the body, insert
it (storage assigns the id), commit, and return the request body itself as
the response.  Returns the response and the post-request database. -/
def add_book (book : BookSchema) (db : DB) : BookSchema × DB :=
  (book,
    { nextId := db.nextId + 1,
      books := db.books ++ [{ id := db.nextId, title := book.title, author := book.author }] })

/-- Embeds `PaginationParams`: `limit` (default 20) and `offset` (default
0); the `Field` bounds `1 ≤ limit ≤ 100` and `0 ≤ offset` are enforced by
validation (`parsePagination`), not by this type. -/
structure PaginationParams where
  limit : Int := 20
  offset : Int := 0
deriving Repr, DecidableEq

/-- A raw query-string parameter as the framework sees it before pydantic
validation: absent, an integer, or present but not parseable as one. -/
inductive RawValue where
  | missing : RawValue
  | intVal : Int → RawValue
  | nonInt : String → RawValue
deriving Repr, DecidableEq

/-- A request-validation failure (FastAPI's 422 response), carrying the
name of the offending parameter. -/
structure ValidationError where
  field : String
deriving Repr, DecidableEq

/-- Embeds the pydantic validation of the `limit` field,
`Field(20, ge=1, le=100)`: absent takes the default 20, a non-integer is
rejected, an integer outside `1 ≤ limit ≤ 100` is rejected. -/
def validateLimit : RawValue → Except ValidationError Int
  | RawValue.missing => Except.ok 20
  | RawValue.intVal l =>
    if 1 ≤ l ∧ l ≤ 100 then Except.ok l else Except.error { field := "limit" }
  | RawValue.nonInt _ => Except.error { field := "limit" }

/-- Embeds the pydantic validation of the `offset` field, `Field(0, ge=0)`:
absent takes the default 0, a non-integer is rejected, a negative integer
is rejected. -/
def validateOffset : RawValue → Except ValidationError Int
  | RawValue.missing => Except.ok 0
  | RawValue.intVal o =>
    if 0 ≤ o then Except.ok o else Except.error { field := "offset" }
  | RawValue.nonInt _ => Except.error { field := "offset" }

/-- Embeds construction of `PaginationParams` from the raw query string:
both fields must validate, otherwise the request fails with a validation
error and no handler runs. -/
def parsePagination (limitRaw offsetRaw : RawValue) :
    Except ValidationError PaginationParams :=
  match validateLimit limitRaw, validateOffset offsetRaw with
  | Except.ok l, Except.ok o => Except.ok { limit := l, offset := o }
  | Except.error e, _ => Except.error e
  | Except.ok _, Except.error e => Except.error e

/-- Serialization of a table row into the list-response schema. -/
def bookToGet (b : BookModel) : BookGetSchema :=
  { id := b.id, title := b.title, author := b.author }

/-- Embeds `get_books` (GET /books): the query
`select(BookModel).limit(limit).offset(offset)` — skip `offset` rows of
the table in storage order, return up to `limit` rows, serialized as
`BookGetSchema`.  Pure: the database is not modified. -/
def get_books (pagination : PaginationParams) (db : DB) : List BookGetSchema :=
  ((db.books.drop pagination.offset.toNat).take pagination.limit.toNat).map bookToGet

/-- The full GET /books endpoint: framework validation of the pagination
query parameters, then the handler; on a validation error the handler
never runs.  The database is returned unchanged in both cases. -/
def get_books_endpoint (limitRaw offsetRaw : RawValue) (db : DB) :
    Except ValidationError (List BookGetSchema) × DB :=
  match parsePagination limitRaw offsetRaw with
  | Except.error e => (Except.error e, db)
  | Except.ok p => (Except.ok (get_books p db), db)

/-- Embeds `delete_book` (DELETE /books/{book_id}): fetch by primary key;
if absent raise `HTTPException(404, "Книга не найдена")`; otherwise delete
the row, commit, and return `{"detail": "Книга с id=<id> удалена"}`. -/
def delete_book (book_id : Int) (db : DB) :
    Except HTTPException DetailResponse × DB :=
  match sessionGet db book_id with
  | none => (Except.error { status_code := 404, detail := "Книга не найдена" }, db)
  | some _ =>
    (Except.ok { detail := s!"Книга с id={book_id} удалена" },
      { db with books := db.books.filter (fun b => b.id != book_id) })

/-- Embeds `update_book` (PUT /books/{book_id}): fetch by primary key; if
absent raise `HTTPException(404, "Книга не найдена")`; otherwise overwrite
exactly the fields of the body that are not `None`, commit, refresh, and
return the post-update record as `BookGetSchema`. -/
def update_book (book_id : Int) (book_data : BookUpdateSchema) (db : DB) :
    Except HTTPException BookGetSchema × DB :=
  match sessionGet db book_id with
  | none => (Except.error { status_code := 404, detail := "Книга не найдена" }, db)
  | some book =>
    let updated : BookModel :=
      { id := book.id,
        title := book_data.title.getD book.title,
        author := book_data.author.getD book.author }
    (Except.ok { id := updated.id, title := updated.title, author := updated.author },
      { db with books := db.books.map (fun b => if b.id == book_id then updated else b) })

/-- A concrete two-row database used by the witness theorems. -/
def dbSample : DB :=
  { nextId := 3,
    books := [{ id := 1, title := "Dune", author := "Herbert" },
              { id := 2, title := "Emma", author := "Austen" }] }

/-! ### Helper lemmas -/

theorem sessionGet_some_id (db : DB) (k : Int) (b : BookModel)
    (h : sessionGet db k = some b) : b.id = k := by
  have h2 := List.find?_some h
  simpa using h2

theorem sessionGet_some_mem (db : DB) (k : Int) (b : BookModel)
    (h : sessionGet db k = some b) : b ∈ db.books :=
  List.mem_of_find?_eq_some h

theorem mem_eq_of_find?_of_nodup (k : Int) (b x : BookModel) :
    ∀ l : List BookModel, (l.map (fun y => y.id)).Nodup →
      l.find? (fun y => y.id == k) = some b → x ∈ l → x.id = k → x = b := by
  intro l
  induction l with
  | nil => intro _ _ hx _; cases hx
  | cons a t ih =>
    intro hnd hb hx hxk
    rw [List.map_cons, List.nodup_cons] at hnd
    by_cases ha : a.id = k
    · rw [List.find?_cons_of_pos _ (by simpa using ha)] at hb
      injection hb with hb
      rcases List.mem_cons.mp hx with hxa | hxt
      · rw [hxa, hb]
      · exfalso
        apply hnd.1
        rw [ha, ← hxk]
        exact List.mem_map.mpr ⟨x, hxt, rfl⟩
    · rw [List.find?_cons_of_neg _ (by simpa using ha)] at hb
      rcases List.mem_cons.mp hx with hxa | hxt
      · exact absurd (hxa ▸ hxk) ha
      · exact ih hnd.2 hb hxt hxk

theorem find?_map_replace (k : Int) (c : BookModel) (hc : c.id = k) :
    ∀ l : List BookModel,
      (l.map (fun b => if b.id == k then c else b)).find? (fun y => y.id == k) =
        Option.map (fun _ => c) (l.find? (fun y => y.id == k)) := by
  intro l
  induction l with
  | nil => rfl
  | cons a t ih =>
    by_cases ha : a.id = k
    · simp [List.find?_cons, ha, hc, -List.find?_map]
    · simp [List.find?_cons, ha, -List.find?_map]
      simpa [-List.find?_map] using ih

theorem map_replace_ids (l : List BookModel) (k : Int) (c : BookModel) (hc : c.id = k) :
    (l.map (fun b => if b.id == k then c else b)).map (fun b => b.id) =
      l.map (fun b => b.id) := by
  rw [List.map_map]
  apply List.map_congr_left
  intro a _
  by_cases ha : a.id = k
  · simp [Function.comp, ha, hc]
  · simp [Function.comp, ha]

theorem find?_filter_ne (l : List BookModel) (k : Int) :
    (l.filter (fun b => b.id != k)).find? (fun y => y.id == k) = none := by
  rw [List.find?_eq_none]
  intro x hx
  have h2 := (List.mem_filter.mp hx).2
  simp only [bne_iff_ne, ne_eq] at h2
  simp [h2]

theorem getD_twice (o : Option String) (d : String) :
    o.getD (o.getD d) = o.getD d := by
  cases o <;> rfl

theorem update_book_absent (db : DB) (book_id : Int) (book_data : BookUpdateSchema)
    (h : sessionGet db book_id = none) :
    update_book book_id book_data db =
      (Except.error { status_code := 404, detail := "Книга не найдена" }, db) := by
  unfold update_book
  rw [h]

theorem delete_book_absent (db : DB) (book_id : Int)
    (h : sessionGet db book_id = none) :
    delete_book book_id db =
      (Except.error { status_code := 404, detail := "Книга не найдена" }, db) := by
  unfold delete_book
  rw [h]

theorem update_book_found (db : DB) (book_id : Int) (book_data : BookUpdateSchema)
    (b : BookModel) (hb : sessionGet db book_id = some b) :
    update_book book_id book_data db =
      (Except.ok (bookToGet { id := b.id, title := book_data.title.getD b.title,
                              author := book_data.author.getD b.author }),
        { db with books := db.books.map (fun x => if x.id == book_id then
            { id := b.id, title := book_data.title.getD b.title,
              author := book_data.author.getD b.author } else x) }) := by
  unfold update_book
  rw [hb]
  rfl

/-! ### Claim theorems -/

/-- C1: for every existing book id, the update applies exactly the fields
supplied non-null in the body and leaves every other field unchanged: the
response and the stored record carry the supplied value where the body has
`some` and the old value where it has `none`, the id of the record is
never changed, every other record is untouched, and the empty body is a
no-op on storage. -/
theorem update_book_applies_supplied_fields (db : DB) (book_id : Int)
    (book_data : BookUpdateSchema) (b : BookModel)
    (hwf : db.wf) (hb : sessionGet db book_id = some b) :
    (update_book book_id book_data db).1 =
      Except.ok { id := b.id, title := book_data.title.getD b.title,
                  author := book_data.author.getD b.author } ∧
    sessionGet (update_book book_id book_data db).2 book_id =
      some { id := b.id, title := book_data.title.getD b.title,
             author := book_data.author.getD b.author } ∧
    (∀ x ∈ db.books, x.id ≠ book_id → x ∈ (update_book book_id book_data db).2.books) ∧
    (update_book book_id { title := none, author := none } db).2 = db := by
  have hid : b.id = book_id := sessionGet_some_id db book_id b hb
  have hfind : List.find? (fun y => y.id == book_id) db.books = some b := hb
  have heq := update_book_found db book_id book_data b hb
  refine ⟨?_, ?_, ?_, ?_⟩
  · rw [heq]
    rfl
  · rw [heq]
    show (db.books.map (fun x => if x.id == book_id then
        ({ id := b.id, title := book_data.title.getD b.title,
           author := book_data.author.getD b.author } : BookModel) else x)).find?
        (fun y => y.id == book_id) = _
    rw [find?_map_replace book_id
        { id := b.id, title := book_data.title.getD b.title,
          author := book_data.author.getD b.author } hid db.books, hfind]
    rfl
  · intro x hx hxne
    rw [heq]
    refine List.mem_map.mpr ⟨x, hx, ?_⟩
    have hne : ¬ ((x.id == book_id) = true) := by simpa using hxne
    rw [if_neg hne]
  · unfold update_book
    rw [hb]
    show ({ db with books := db.books.map (fun x => if x.id == book_id then
        ({ id := b.id, title := b.title, author := b.author } : BookModel) else x) } : DB) = db
    have hpt : ∀ x ∈ db.books, (if x.id == book_id then
        ({ id := b.id, title := b.title, author := b.author } : BookModel) else x) = x := by
      intro x hx
      by_cases hxk : x.id = book_id
      · have hxb : x = b := mem_eq_of_find?_of_nodup book_id b x db.books hwf.1 hfind hx hxk
        subst hxb
        rw [if_pos (by simpa using hxk)]
      · rw [if_neg (by simpa using hxk)]
    rw [List.map_congr_left hpt, List.map_id']

/-- C1 witness: on the sample database, updating id 1 with only a title
changes the title, keeps the author, keeps the id; the empty body leaves
the database unchanged. -/
theorem update_book_applies_supplied_fields_witness :
    dbSample.wf ∧
    sessionGet dbSample 1 = some { id := 1, title := "Dune", author := "Herbert" } ∧
    (update_book 1 { title := some "Messiah", author := none } dbSample).1 =
      Except.ok { id := 1, title := "Messiah", author := "Herbert" } ∧
    (update_book 1 { title := none, author := none } dbSample).2 = dbSample := by
  refine ⟨by decide, by decide, ?_, ?_⟩
  · exact (update_book_applies_supplied_fields dbSample 1
      { title := some "Messiah", author := none }
      { id := 1, title := "Dune", author := "Herbert" } (by decide) (by decide)).1
  · exact (update_book_applies_supplied_fields dbSample 1
      { title := none, author := none }
      { id := 1, title := "Dune", author := "Herbert" } (by decide) (by decide)).2.2.2

/-- C2 (amended): for every id absent from storage, update and delete both
fail with status code 404 and detail "Книга не найдена" (Russian for "book
not found"), and neither modifies storage. -/
theorem update_delete_absent_404 (db : DB) (book_id : Int) (book_data : BookUpdateSchema)
    (h : sessionGet db book_id = none) :
    update_book book_id book_data db =
      (Except.error { status_code := 404, detail := "Книга не найдена" }, db) ∧
    delete_book book_id db =
      (Except.error { status_code := 404, detail := "Книга не найдена" }, db) :=
  ⟨update_book_absent db book_id book_data h, delete_book_absent db book_id h⟩

/-- C2 fails as literally stated: at id 1 on an empty database, update and
delete respond with the Russian detail "Книга не найдена", not with the
English message "book not found" the claim quotes. -/
theorem update_delete_absent_404_counterexample :
    (update_book 1 { title := none, author := none } { nextId := 1, books := [] }).1 ≠
      Except.error { status_code := 404, detail := "book not found" } ∧
    (delete_book 1 { nextId := 1, books := [] }).1 ≠
      Except.error { status_code := 404, detail := "book not found" } ∧
    (delete_book 1 { nextId := 1, books := [] }).1 =
      Except.error { status_code := 404, detail := "Книга не найдена" } := by
  refine ⟨by decide, by decide, by decide⟩

/-- C2 witness: id 7 is absent from the sample database and both handlers
return the 404 error there, leaving the database unchanged. -/
theorem update_delete_absent_404_witness :
    sessionGet dbSample 7 = none ∧
    update_book 7 { title := none, author := none } dbSample =
      (Except.error { status_code := 404, detail := "Книга не найдена" }, dbSample) ∧
    delete_book 7 dbSample =
      (Except.error { status_code := 404, detail := "Книга не найдена" }, dbSample) := by
  refine ⟨by decide, ?_, ?_⟩
  · exact (update_delete_absent_404 dbSample 7 { title := none, author := none } (by decide)).1
  · exact (update_delete_absent_404 dbSample 7 { title := none, author := none } (by decide)).2

/-- C3: the create response echoes exactly the submitted title and author;
its schema (`BookSchema`) has no id field, and the body does not depend on
the database state, so it cannot carry the server-generated id. -/
theorem add_book_echoes_input (book : BookSchema) (db : DB) :
    (add_book book db).1 = { title := book.title, author := book.author } ∧
    ∀ db2 : DB, (add_book book db).1 = (add_book book db2).1 :=
  ⟨rfl, fun _ => rfl⟩

/-- C4 (amended): deleting an existing id returns the confirmation body
whose detail is "Книга с id=<id> удалена" (Russian for "book with id=<id>
deleted"), which contains the deleted id. -/
theorem delete_book_confirmation (db : DB) (book_id : Int) (b : BookModel)
    (hb : sessionGet db book_id = some b) :
    (delete_book book_id db).1 =
      Except.ok { detail := s!"Книга с id={book_id} удалена" } := by
  unfold delete_book
  rw [hb]

/-- C4 fails as literally stated: deleting id 1 from a one-row database
returns detail "Книга с id=1 удалена", not "book id=1 deleted". -/
theorem delete_book_confirmation_counterexample :
    (delete_book 1 { nextId := 2, books := [{ id := 1, title := "Dune", author := "Herbert" }] }).1 =
      Except.ok { detail := "Книга с id=1 удалена" } ∧
    (delete_book 1 { nextId := 2, books := [{ id := 1, title := "Dune", author := "Herbert" }] }).1 ≠
      Except.ok { detail := "book id=1 deleted" } := by
  refine ⟨by decide, by decide⟩

/-- C4 witness: deleting the existing id 2 of the sample database yields
the confirmation body containing id 2. -/
theorem delete_book_confirmation_witness :
    sessionGet dbSample 2 = some { id := 2, title := "Emma", author := "Austen" } ∧
    (delete_book 2 dbSample).1 = Except.ok { detail := "Книга с id=2 удалена" } := by
  refine ⟨by decide, ?_⟩
  have h := delete_book_confirmation dbSample 2 { id := 2, title := "Emma", author := "Austen" }
    (by decide)
  exact h.trans (by decide)

/-- C5: after a successful delete the id is absent from storage, so a
second delete of the same id fails with the 404 not-found error. -/
theorem delete_twice_404 (db : DB) (book_id : Int) (b : BookModel)
    (hb : sessionGet db book_id = some b) :
    sessionGet (delete_book book_id db).2 book_id = none ∧
    (delete_book book_id (delete_book book_id db).2).1 =
      Except.error { status_code := 404, detail := "Книга не найдена" } := by
  have habs : sessionGet (delete_book book_id db).2 book_id = none := by
    unfold delete_book
    rw [hb]
    exact find?_filter_ne db.books book_id
  exact ⟨habs, by rw [delete_book_absent _ _ habs]⟩

/-- C5 witness: deleting id 1 of the sample database twice yields the 404
error on the second call. -/
theorem delete_twice_404_witness :
    sessionGet dbSample 1 = some { id := 1, title := "Dune", author := "Herbert" } ∧
    (delete_book 1 (delete_book 1 dbSample).2).1 =
      Except.error { status_code := 404, detail := "Книга не найдена" } :=
  ⟨by decide,
    (delete_twice_404 dbSample 1 { id := 1, title := "Dune", author := "Herbert" } (by decide)).2⟩

/-- C6: update is idempotent: for an existing id, applying the update a
second time with the same body returns the same response and leaves the
stored state exactly as after the first application. -/
theorem update_book_idempotent (db : DB) (book_id : Int)
    (book_data : BookUpdateSchema) (b : BookModel)
    (hb : sessionGet db book_id = some b) :
    update_book book_id book_data (update_book book_id book_data db).2 =
      ((update_book book_id book_data db).1, (update_book book_id book_data db).2) := by
  have hid : b.id = book_id := sessionGet_some_id db book_id b hb
  have hfind : List.find? (fun y => y.id == book_id) db.books = some b := hb
  have h1 := update_book_found db book_id book_data b hb
  have hfind2 : sessionGet (update_book book_id book_data db).2 book_id =
      some { id := b.id, title := book_data.title.getD b.title,
             author := book_data.author.getD b.author } := by
    rw [h1]
    show (db.books.map (fun x => if x.id == book_id then
        ({ id := b.id, title := book_data.title.getD b.title,
           author := book_data.author.getD b.author } : BookModel) else x)).find?
        (fun y => y.id == book_id) = _
    rw [find?_map_replace book_id
        { id := b.id, title := book_data.title.getD b.title,
          author := book_data.author.getD b.author } hid db.books, hfind]
    rfl
  have h2 := update_book_found (update_book book_id book_data db).2 book_id book_data
    { id := b.id, title := book_data.title.getD b.title,
      author := book_data.author.getD b.author } hfind2
  rw [h2, h1]
  dsimp only
  rw [getD_twice, getD_twice]
  have hff : ∀ x ∈ db.books.map (fun y => if y.id == book_id then
      ({ id := b.id, title := book_data.title.getD b.title,
         author := book_data.author.getD b.author } : BookModel) else y),
      (if x.id == book_id then
        ({ id := b.id, title := book_data.title.getD b.title,
           author := book_data.author.getD b.author } : BookModel) else x) = x := by
    intro x hx
    rcases List.mem_map.mp hx with ⟨y, _, hy⟩
    by_cases hyk : y.id = book_id
    · rw [if_pos (by simpa using hyk)] at hy
      rw [← hy, if_pos (by simpa using hid)]
    · rw [if_neg (by simpa using hyk)] at hy
      rw [← hy, if_neg (by simpa using hyk)]
  rw [List.map_congr_left hff, List.map_id']

/-- C6 witness: updating id 2 of the sample database twice with the same
body equals applying it once. -/
theorem update_book_idempotent_witness :
    sessionGet dbSample 2 = some { id := 2, title := "Emma", author := "Austen" } ∧
    update_book 2 { title := none, author := some "J. Austen" }
        (update_book 2 { title := none, author := some "J. Austen" } dbSample).2 =
      ((update_book 2 { title := none, author := some "J. Austen" } dbSample).1,
        (update_book 2 { title := none, author := some "J. Austen" } dbSample).2) :=
  ⟨by decide,
    update_book_idempotent dbSample 2 { title := none, author := some "J. Austen" }
      { id := 2, title := "Emma", author := "Austen" } (by decide)⟩

theorem validateLimit_ok_iff (r : RawValue) (n : Int) :
    validateLimit r = Except.ok n ↔
      (r = RawValue.missing ∧ n = 20) ∨ (r = RawValue.intVal n ∧ 1 ≤ n ∧ n ≤ 100) := by
  cases r with
  | missing => simp [validateLimit, eq_comm]
  | intVal l =>
    by_cases h : 1 ≤ l ∧ l ≤ 100
    · simp only [validateLimit, if_pos h, Except.ok.injEq]
      constructor
      · intro h1
        subst h1
        exact Or.inr ⟨rfl, h⟩
      · rintro (⟨h1, _⟩ | ⟨h1, _⟩)
        · cases h1
        · injection h1 with h1
    · simp only [validateLimit, if_neg h]
      constructor
      · intro h1
        cases h1
      · rintro (⟨h1, _⟩ | ⟨h1, h2, h3⟩)
        · cases h1
        · injection h1 with h1
          subst h1
          exact absurd ⟨h2, h3⟩ h
  | nonInt s =>
    simp only [validateLimit]
    constructor
    · intro h1
      cases h1
    · rintro (⟨h1, _⟩ | ⟨h1, _⟩) <;> cases h1

theorem validateOffset_ok_iff (r : RawValue) (n : Int) :
    validateOffset r = Except.ok n ↔
      (r = RawValue.missing ∧ n = 0) ∨ (r = RawValue.intVal n ∧ 0 ≤ n) := by
  cases r with
  | missing => simp [validateOffset, eq_comm]
  | intVal o =>
    by_cases h : 0 ≤ o
    · simp only [validateOffset, if_pos h, Except.ok.injEq]
      constructor
      · intro h1
        subst h1
        exact Or.inr ⟨rfl, h⟩
      · rintro (⟨h1, _⟩ | ⟨h1, _⟩)
        · cases h1
        · injection h1 with h1
    · simp only [validateOffset, if_neg h]
      constructor
      · intro h1
        cases h1
      · rintro (⟨h1, _⟩ | ⟨h1, h2⟩)
        · cases h1
        · injection h1 with h1
          subst h1
          exact absurd h2 h
  | nonInt s =>
    simp only [validateOffset]
    constructor
    · intro h1
      cases h1
    · rintro (⟨h1, _⟩ | ⟨h1, _⟩) <;> cases h1

theorem parsePagination_ok_iff (limitRaw offsetRaw : RawValue) (p : PaginationParams) :
    parsePagination limitRaw offsetRaw = Except.ok p ↔
      validateLimit limitRaw = Except.ok p.limit ∧
      validateOffset offsetRaw = Except.ok p.offset := by
  obtain ⟨pl, po⟩ := p
  unfold parsePagination
  rcases hL : validateLimit limitRaw with eL | l
  · simp [hL]
  · rcases hO : validateOffset offsetRaw with eO | o
    · simp [hO]
    · simp [PaginationParams.mk.injEq, and_comm]

/-- C7: the pagination parameters take defaults limit=20 and offset=0 when
absent, accept exactly the integers with 1 ≤ limit ≤ 100 and 0 ≤ offset,
reject any non-integer or out-of-range value with a request-validation
error, and a rejected request never reaches (or alters) storage. -/
theorem pagination_params_validation (limitRaw offsetRaw : RawValue) (db : DB) :
    (∀ p : PaginationParams, parsePagination limitRaw offsetRaw = Except.ok p ↔
      ((limitRaw = RawValue.missing ∧ p.limit = 20) ∨
        (limitRaw = RawValue.intVal p.limit ∧ 1 ≤ p.limit ∧ p.limit ≤ 100)) ∧
      ((offsetRaw = RawValue.missing ∧ p.offset = 0) ∨
        (offsetRaw = RawValue.intVal p.offset ∧ 0 ≤ p.offset))) ∧
    (∀ e, parsePagination limitRaw offsetRaw = Except.error e →
      get_books_endpoint limitRaw offsetRaw db = (Except.error e, db)) := by
  constructor
  · intro p
    rw [parsePagination_ok_iff, validateLimit_ok_iff, validateOffset_ok_iff]
  · intro e he
    unfold get_books_endpoint
    rw [he]

/-- C7 witness: limit=5 with offset absent validates to {limit 5, offset 0};
limit=0 is out of range and the endpoint rejects it without touching the
database. -/
theorem pagination_params_validation_witness :
    parsePagination (RawValue.intVal 5) RawValue.missing =
      Except.ok { limit := 5, offset := 0 } ∧
    get_books_endpoint (RawValue.intVal 0) RawValue.missing dbSample =
      (Except.error { field := "limit" }, dbSample) := by
  constructor
  · exact ((pagination_params_validation (RawValue.intVal 5) RawValue.missing dbSample).1
      { limit := 5, offset := 0 }).mpr (by decide)
  · exact (pagination_params_validation (RawValue.intVal 0) RawValue.missing dbSample).2
      { field := "limit" } (by decide)

/-- C8: for valid pagination parameters the list operation returns at most
`limit` records, its i-th record is the record at position offset+i of the
table, it returns the empty list once `offset` reaches the record count,
and the endpoint leaves the database unchanged. -/
theorem get_books_spec (db : DB) (p : PaginationParams)
    (hl1 : 1 ≤ p.limit) (hl2 : p.limit ≤ 100) (ho : 0 ≤ p.offset) :
    ((get_books p db).length : Int) ≤ p.limit ∧
    (∀ i : Nat, i < (get_books p db).length →
      (get_books p db)[i]? = Option.map bookToGet db.books[p.offset.toNat + i]?) ∧
    ((db.books.length : Int) ≤ p.offset → get_books p db = []) ∧
    (∀ limitRaw offsetRaw : RawValue, (get_books_endpoint limitRaw offsetRaw db).2 = db) := by
  refine ⟨?_, ?_, ?_, ?_⟩
  · have h1 : (get_books p db).length ≤ p.limit.toNat := by
      unfold get_books
      rw [List.length_map, List.length_take]
      exact Nat.min_le_left _ _
    omega
  · intro i hi
    unfold get_books at hi ⊢
    have h2 : i < p.limit.toNat := by
      rw [List.length_map, List.length_take] at hi
      omega
    rw [List.getElem?_map, List.getElem?_take_of_lt h2, List.getElem?_drop]
  · intro hle
    unfold get_books
    have h3 : db.books.drop p.offset.toNat = [] := by
      rw [List.drop_eq_nil_iff]
      omega
    rw [h3]
    simp
  · intro limitRaw offsetRaw
    unfold get_books_endpoint
    rcases hpp : parsePagination limitRaw offsetRaw with e | q <;> rfl

/-- C8 witness: with limit=1 and offset=1 on the two-row sample database
the result has at most one record, and the endpoint leaves the database
unchanged. -/
theorem get_books_spec_witness :
    ((get_books { limit := 1, offset := 1 } dbSample).length : Int) ≤ 1 ∧
    (get_books_endpoint RawValue.missing RawValue.missing dbSample).2 = dbSample :=
  ⟨(get_books_spec dbSample { limit := 1, offset := 1 }
      (by decide) (by decide) (by decide)).1,
    (get_books_spec dbSample { limit := 1, offset := 1 }
      (by decide) (by decide) (by decide)).2.2.2 RawValue.missing RawValue.missing⟩

/-- C9: creating a book and then listing with offset 0 and a limit of at
least the new record count yields a list containing a record with the
submitted title and author. -/
theorem create_then_list_contains (book : BookSchema) (db : DB) (p : PaginationParams)
    (hoff : p.offset = 0) (hlim : (db.books.length : Int) + 1 ≤ p.limit) :
    ∃ r ∈ get_books p (add_book book db).2,
      r.title = book.title ∧ r.author = book.author := by
  refine ⟨bookToGet { id := db.nextId, title := book.title, author := book.author },
    ?_, rfl, rfl⟩
  unfold get_books add_book
  rw [hoff]
  have hlen : (db.books ++
      [({ id := db.nextId, title := book.title, author := book.author } : BookModel)]).length
      ≤ p.limit.toNat := by
    rw [List.length_append]
    simp only [List.length_singleton]
    omega
  rw [show ((0 : Int).toNat) = 0 from rfl, List.drop_zero, List.take_of_length_le hlen]
  exact List.mem_map.mpr
    ⟨{ id := db.nextId, title := book.title, author := book.author }, by simp, rfl⟩

/-- C9 witness: creating {Hamlet, Shakespeare} on the sample database and
listing with the default parameters contains that record. -/
theorem create_then_list_contains_witness :
    ((20 : Int) ≥ (dbSample.books.length : Int) + 1) ∧
    ∃ r ∈ get_books { limit := 20, offset := 0 }
        (add_book { title := "Hamlet", author := "Shakespeare" } dbSample).2,
      r.title = "Hamlet" ∧ r.author = "Shakespeare" :=
  ⟨by decide,
    create_then_list_contains { title := "Hamlet", author := "Shakespeare" } dbSample
      { limit := 20, offset := 0 } (by decide) (by decide)⟩

/-- C10: no uniqueness constraint exists on title or author: creating the
same body twice (even with empty-string fields) succeeds both times and
stores two distinct records with distinct server-generated ids, and the
storage invariant is preserved. -/
theorem create_twice_distinct (book : BookSchema) (db : DB) (hwf : db.wf) :
    ∃ b1 b2 : BookModel,
      b1 ∈ (add_book book (add_book book db).2).2.books ∧
      b2 ∈ (add_book book (add_book book db).2).2.books ∧
      b1 ≠ b2 ∧ b1.id ≠ b2.id ∧
      b1.title = book.title ∧ b1.author = book.author ∧
      b2.title = book.title ∧ b2.author = book.author ∧
      (add_book book (add_book book db).2).2.wf := by
  have hnd := hwf.1
  have hlt := hwf.2
  refine ⟨{ id := db.nextId, title := book.title, author := book.author },
          { id := db.nextId + 1, title := book.title, author := book.author },
          ?_, ?_, ?_, ?_, rfl, rfl, rfl, rfl, ?_⟩
  · simp [add_book]
  · simp [add_book]
  · intro h
    have h2 : db.nextId = db.nextId + 1 := congrArg (fun z : BookModel => z.id) h
    omega
  · intro h
    have h2 : db.nextId = db.nextId + 1 := h
    omega
  · refine ⟨?_, ?_⟩
    · show ((((db.books ++
        [({ id := db.nextId, title := book.title, author := book.author } : BookModel)]) ++
        [({ id := db.nextId + 1, title := book.title, author := book.author } : BookModel)]).map
        (fun b : BookModel => b.id))).Nodup
      rw [List.map_append, List.map_append]
      simp only [List.map_cons, List.map_nil]
      refine List.Nodup.append (List.Nodup.append hnd (List.nodup_singleton _) ?_)
        (List.nodup_singleton _) ?_
      · intro a ha hb
        rw [List.mem_singleton] at hb
        rcases List.mem_map.mp ha with ⟨y, hy, rfl⟩
        have hylt := hlt y hy
        have hb2 : y.id = db.nextId := hb
        omega
      · intro a ha hb
        rw [List.mem_singleton] at hb
        have hb2 : a = db.nextId + 1 := hb
        rcases List.mem_append.mp ha with h1 | h2
        · rcases List.mem_map.mp h1 with ⟨y, hy, rfl⟩
          have hylt := hlt y hy
          omega
        · rw [List.mem_singleton] at h2
          have h3 : a = db.nextId := h2
          omega
    · intro x hx
      show x.id < db.nextId + 1 + 1
      rcases List.mem_append.mp hx with h1 | h2
      · rcases List.mem_append.mp h1 with h3 | h4
        · have := hlt x h3
          omega
        · rw [List.mem_singleton] at h4
          have h5 : x.id = db.nextId := congrArg (fun z : BookModel => z.id) h4
          omega
      · rw [List.mem_singleton] at h2
        have h5 : x.id = db.nextId + 1 := congrArg (fun z : BookModel => z.id) h2
        omega

/-- C10 witness: creating the empty-string body twice on an empty database
yields two distinct records with distinct ids. -/
theorem create_twice_distinct_witness :
    DB.wf { nextId := 1, books := [] } ∧
    ∃ b1 b2 : BookModel,
      b1 ∈ (add_book { title := "", author := "" }
        (add_book { title := "", author := "" } { nextId := 1, books := [] }).2).2.books ∧
      b2 ∈ (add_book { title := "", author := "" }
        (add_book { title := "", author := "" } { nextId := 1, books := [] }).2).2.books ∧
      b1 ≠ b2 ∧ b1.id ≠ b2.id ∧
      b1.title = "" ∧ b1.author = "" ∧ b2.title = "" ∧ b2.author = "" ∧
      (add_book { title := "", author := "" }
        (add_book { title := "", author := "" } { nextId := 1, books := [] }).2).2.wf :=
  ⟨by decide,
    create_twice_distinct { title := "", author := "" } { nextId := 1, books := [] } (by decide)⟩
